import Mathlib

/-!
Verification of the part-classification, command-routing, lighting and material
logic of `src/main.js` (3DcarVisual).  Strings are embedded as `List Char`,
the loaded scene graph as the list of its nodes in depth-first traversal order
(both `Object3D.traverse` and `getObjectByName` visit nodes in that order),
and the mutable browser state (select values, chat log, light visibility,
material references) as explicit record/state values.
-/

/-- `String.toList` shorthand used to embed JS string literals. -/
def toL (s : String) : List Char := s.toList

/-- JS `String.prototype.toLowerCase` restricted to ASCII, as used on names. -/
def lowerL (l : List Char) : List Char := l.map Char.toLower

/-- Is the first list a prefix of the second (by `==` on characters)? -/
def isPrefixL : List Char → List Char → Bool
  | [], _ => true
  | _ :: _, [] => false
  | a :: as, b :: bs => a == b && isPrefixL as bs

/-- JS `String.prototype.includes`: the needle occurs contiguously in the hay. -/
def containsSub (needle hay : List Char) : Bool :=
  match hay with
  | [] => needle.isEmpty
  | c :: t => isPrefixL needle (c :: t) || containsSub needle t

/-- A regex word character `\w` = `[A-Za-z0-9_]`. -/
def wordChar (c : Char) : Bool := c.isAlpha || c.isDigit || c == '_'

/-- Does `\bbody\b` match at the head of `l`, given whether the previous
character (if any) was a word character? -/
def bodyHere (prevWord : Bool) (l : List Char) : Bool :=
  match prevWord, l with
  | false, 'b' :: 'o' :: 'd' :: 'y' :: rest =>
    match rest with
    | [] => true
    | c :: _ => !wordChar c
  | _, _ => false

/-- Does `\bbody\b` match anywhere in the list?  The boolean argument records
whether the character just before the current position was a word character
(`false` at the start of the string). -/
def hasWordBody : Bool → List Char → Bool
  | _, [] => false
  | prevWord, c :: rest => bodyHere prevWord (c :: rest) || hasWordBody (wordChar c) rest

/-- The body-name pattern `/(\bbody\b|paint|carpaint|bodywork|car_body)/i` of
`initCar`, applied (as in `collectMeshesByNamePattern`) to the lower-cased
node name. -/
def matchesBodyPattern (s : List Char) : Bool :=
  hasWordBody false s || containsSub (toL "paint") s || containsSub (toL "carpaint") s ||
    containsSub (toL "bodywork") s || containsSub (toL "car_body") s

/-- The exclusion keywords of the fallback rule of `initCar`. -/
def exclusionWords : List (List Char) :=
  [toL "glass", toL "rim", toL "tire", toL "wheel", toL "trim", toL "logo",
   toL "emblem", toL "interior", toL "seat", toL "light", toL "lamp"]

/-- The fallback exclusion regex
`/(glass|rim|tire|wheel|trim|logo|emblem|interior|seat|light|lamp)/` applied to
the lower-cased node name. -/
def hasExclusion (s : List Char) : Bool := exclusionWords.any (fun w => containsSub w s)

/-- The glass-name pattern `/(glass|windshield|window)/i` applied to the
lower-cased node name. -/
def matchesGlassPattern (s : List Char) : Bool :=
  containsSub (toL "glass") s || containsSub (toL "windshield") s || containsSub (toL "window") s

/-- A scene-graph node: `id` models JS object identity, `name` and `isMesh`
are the two attributes the classifier reads.  A scene graph is embedded as the
list of its nodes in depth-first traversal order. -/
structure SceneNode where
  id : Nat
  name : List Char
  isMesh : Bool
deriving DecidableEq

/-- `uniquePush` of `main.js`: push unless already present (JS
`Array.prototype.includes` with object identity). -/
def uniquePush (arr : List SceneNode) (item : SceneNode) : List SceneNode :=
  if item ∈ arr then arr else arr ++ [item]

/-- `Object3D.getObjectByName`: first node (in traversal order) whose name is
exactly the given string. -/
def getObjectByName (g : List SceneNode) (nm : List Char) : Option SceneNode :=
  g.find? (fun o => o.name == nm)

/-- `collectMeshesByNamePattern` of `main.js`: every mesh whose lower-cased
name satisfies the pattern, in traversal order. -/
def collectMeshesByNamePattern (g : List SceneNode) (p : List Char → Bool) : List SceneNode :=
  g.filter (fun o => o.isMesh && p (lowerL o.name))

/-- Step 1 of `initCar`: `getObjectByName('body')`, pushed if it is a mesh. -/
def bodyStep1 (g : List SceneNode) : List SceneNode :=
  match getObjectByName g (toL "body") with
  | some m => if m.isMesh then uniquePush [] m else []
  | none => []

/-- Steps 1–2 of `initCar`: the explicit-name body rule followed by the
body/paint pattern rule. -/
def bodyPhase12 (g : List SceneNode) : List SceneNode :=
  (collectMeshesByNamePattern g matchesBodyPattern).foldl uniquePush (bodyStep1 g)

/-- The meshes eligible for the fallback body rule: meshes whose lower-cased
name contains no exclusion keyword. -/
def fallbackMeshes (g : List SceneNode) : List SceneNode :=
  g.filter (fun o => o.isMesh && !(hasExclusion (lowerL o.name)))

/-- `carParts.body` after `initCar`: the fallback runs only when steps 1–2
left the group empty (`carParts.body.length === 0`). -/
def bodyGroup (g : List SceneNode) : List SceneNode :=
  if bodyPhase12 g = [] then (fallbackMeshes g).foldl uniquePush (bodyPhase12 g)
  else bodyPhase12 g

/-- The fixed rim/trim identifiers looked up by name in `initCar`. -/
def rimNames : List (List Char) :=
  [toL "rim_fl", toL "rim_fr", toL "rim_rr", toL "rim_rl", toL "trim"]

/-- `carParts.rims` after `initCar`. -/
def rimsGroup (g : List SceneNode) : List SceneNode :=
  rimNames.foldl
    (fun acc nm =>
      match getObjectByName g nm with
      | some m => if m.isMesh then uniquePush acc m else acc
      | none => acc)
    []

/-- The pattern-collection phase of the glass group in `initCar`. -/
def glassPhase (g : List SceneNode) : List SceneNode :=
  (collectMeshesByNamePattern g matchesGlassPattern).foldl uniquePush []

/-- `carParts.glass` after `initCar`: pattern collection, then the exact-name
lookup `'glass'`. -/
def glassGroup (g : List SceneNode) : List SceneNode :=
  match getObjectByName g (toL "glass") with
  | some m => if m.isMesh then uniquePush (glassPhase g) m else glassPhase g
  | none => glassPhase g

/-- `carParts.doors` after `initCar`: exact-name lookups `door_left`,
`door_right` (no mesh check in the source). -/
def doorsGroup (g : List SceneNode) : List SceneNode :=
  let d :=
    match getObjectByName g (toL "door_left") with
    | some m => uniquePush [] m
    | none => []
  match getObjectByName g (toL "door_right") with
  | some m => uniquePush d m
  | none => d

/-- The `carParts` record built by `initCar`. -/
structure PartGroups where
  body : List SceneNode
  rims : List SceneNode
  glass : List SceneNode
  doors : List SceneNode
deriving DecidableEq

/-- The whole part classification of `initCar` on a loaded scene graph. -/
def classify (g : List SceneNode) : PartGroups :=
  ⟨bodyGroup g, rimsGroup g, glassGroup g, doorsGroup g⟩

/-- `materialsLib.main` names, in declaration order (`initMaterials`). -/
def mainNames : List (List Char) :=
  [toL "orange", toL "blue", toL "red", toL "black", toL "white", toL "metallic"]

/-- `materialsLib.glass` names, in declaration order (`initMaterials`). -/
def glassMatNames : List (List Char) :=
  [toL "clear", toL "smoked", toL "blue", toL "tinted"]

/-- `Object.keys(allLights)` in insertion order (`initLights`). -/
def lightingNames : List (List Char) :=
  [toL "directional", toL "ambient", toL "night", toL "dark", toL "showroom"]

/-- The bot messages `handleCommand`/`ensureCarReady` can append to the chat
log, abstracted from their exact English text. -/
inductive Msg where
  | stillLoading
  | openingDoors
  | bodySet (name : List Char)
  | rimSet (name : List Char)
  | glassSet (name : List Char)
  | lightingSet (name : List Char)
  | help
deriving DecidableEq

/-- Which intent (if any) a routed command applied. -/
inductive Outcome where
  | openedDoors
  | setBody (name : List Char)
  | setRim (name : List Char)
  | setGlass (name : List Char)
  | setLighting (name : List Char)
  | notUnderstood
deriving DecidableEq

/-- The selection/lighting/chat state `handleCommand` reads and mutates:
the three material-select values, the lighting-select value, the door flag,
and the chat log. -/
structure BotState where
  bodyMat : List Char
  rimMat : List Char
  glassMat : List Char
  lighting : List Char
  doorsOpened : Bool
  log : List Msg
deriving DecidableEq

/-- Modelled from the spec: `openDoors` is called by `handleCommand` but its
definition is not among the repository sources under `src/`; per the spec the
door intent "trigger[s] door-open animation/action", modelled here as setting
a flag on the state. -/
def openDoors (st : BotState) : BotState := { st with doorsOpened := true }

/-- `addMessage('Bot', …)`: append a message to the chat log. -/
def addMessage (st : BotState) (m : Msg) : BotState := { st with log := st.log ++ [m] }

/-- `ensureCarReady` of `main.js`: given whether `carModel` is set and the
size of `carParts.body`, report not-ready (logging the still-loading message)
or ready.  Defined in the source but never invoked by any handler. -/
def ensureCarReady (carModelLoaded : Bool) (bodyCount : Nat) (st : BotState) :
    Bool × BotState :=
  if !carModelLoaded || bodyCount == 0 then (false, addMessage st Msg.stillLoading)
  else (true, st)

/-- The inner material-name scan of `handleCommand`: first name in declaration
order whose lower-cased form occurs in the text. -/
def firstNameIn (names : List (List Char)) (text : List Char) : Option (List Char) :=
  names.find? (fun n => containsSub (lowerL n) text)

/-- `handleCommand` of `main.js`.  `raw = none` models a null/undefined
argument (`raw || ''`).  Each keyword branch whose inner scan finds no name
falls through to the next branch, exactly as in the source (the inner `for`
loop returns only on a match). -/
def handleCommand (raw : Option (List Char)) (st : BotState) : Outcome × BotState :=
  let text := lowerL (raw.getD [])
  if containsSub (toL "open") text && containsSub (toL "door") text then
    (Outcome.openedDoors, addMessage (openDoors st) Msg.openingDoors)
  else
    match (if containsSub (toL "body") text || containsSub (toL "paint") text then
            firstNameIn mainNames text else none) with
    | some n => (Outcome.setBody n, addMessage { st with bodyMat := n } (Msg.bodySet n))
    | none =>
      match (if containsSub (toL "rim") text || containsSub (toL "details") text then
              firstNameIn mainNames text else none) with
      | some n => (Outcome.setRim n, addMessage { st with rimMat := n } (Msg.rimSet n))
      | none =>
        match (if containsSub (toL "glass") text then
                firstNameIn glassMatNames text else none) with
        | some n => (Outcome.setGlass n, addMessage { st with glassMat := n } (Msg.glassSet n))
        | none =>
          match (if containsSub (toL "light") text || containsSub (toL "lighting") text then
                  firstNameIn lightingNames text else none) with
          | some n =>
            (Outcome.setLighting n, addMessage { st with lighting := n } (Msg.lightingSet n))
          | none => (Outcome.notUnderstood, addMessage st Msg.help)

/-- The visibility state of the lighting system: each preset name paired with
the `visible` flags of its lights. -/
abbrev LightingState := List (List Char × List Bool)

/-- The first phase of `updateLighting`: every light of every preset made
invisible. -/
def allOff (st : LightingState) : LightingState :=
  st.map (fun p => (p.1, p.2.map (fun _ => false)))

/-- `updateLighting` of `main.js` for a chosen mode: make every light of every
preset invisible, then, when the mode is not `'none'` and is a key of
`allLights`, make exactly that preset's lights visible. -/
def setActivePreset (mode : List Char) (st : LightingState) : LightingState :=
  if !(mode == toL "none") && (st.find? (fun p => p.1 == mode)).isSome then
    (allOff st).map (fun p => if p.1 == mode then (p.1, p.2.map (fun _ => true)) else p)
  else allOff st

/-- `allLights` as built by `initLights`, all lights initially invisible. -/
def initLightsState : LightingState :=
  [(toL "directional", [false]), (toL "ambient", [false]), (toL "night", [false]),
   (toL "dark", [false]), (toL "showroom", [false, false, false])]

/-- The material reference held by each mesh, as a store from mesh identity to
material identity.  A shared store (rather than per-group copies) keeps the
aliasing of a mesh listed in several groups. -/
abbrev MatStore := Nat → Nat

/-- One assignment `part.material = mat`. -/
def setMat (s : MatStore) (i : Nat) (v : Nat) : MatStore :=
  fun k => if k = i then v else s k

/-- A sequence of material assignments, performed left to right. -/
def applyWrites (ws : List (Nat × Nat)) (s : MatStore) : MatStore :=
  ws.foldl (fun acc w => setMat acc w.1 w.2) s

/-- The three selected materials read from the selects in `updateMaterials`. -/
structure Selection where
  body : Nat
  rims : Nat
  glass : Nat

/-- The part groups as lists of mesh identities, as consumed by
`updateMaterials`. -/
structure GroupIds where
  body : List Nat
  rims : List Nat
  glass : List Nat

/-- `updateMaterials` of `main.js`: assign the selected body material to every
body part, then the rim material to every rim, then the glass material to
every glass part. -/
def updateMaterials (sel : Selection) (g : GroupIds) (s : MatStore) : MatStore :=
  applyWrites
    (g.body.map (fun i => (i, sel.body)) ++ g.rims.map (fun i => (i, sel.rims)) ++
      g.glass.map (fun i => (i, sel.glass)))
    s

/-- A material as probed by `setMeshColor`: whether `m.color && m.color.set`
is truthy, the colour value, and the `needsUpdate` flag. -/
structure Mat where
  hasSettableColor : Bool
  color : Nat
  needsUpdate : Bool
deriving DecidableEq

/-- `mesh.material`: either a single material or an array of materials; an
entry may be null (`none`). -/
inductive MatField where
  | single (m : Option Mat)
  | array (ms : List (Option Mat))
deriving DecidableEq

/-- A mesh as read by `setMeshColor`. -/
structure MeshRec where
  material : MatField
deriving DecidableEq

/-- The per-entry action of `setMeshColor`: set the colour and mark dirty when
the entry exposes a settable colour, otherwise leave it untouched. -/
def setOne (c : Nat) : Option Mat → Option Mat
  | none => none
  | some m =>
    if m.hasSettableColor then some { m with color := c, needsUpdate := true } else some m

/-- The material entries of a mesh, a single material viewed as a one-element
sequence (`Array.isArray(mesh.material) ? mesh.material : [mesh.material]`). -/
def matsOf (mk : MeshRec) : List (Option Mat) :=
  match mk.material with
  | .single m => [m]
  | .array ms => ms

/-- `setMeshColor` of `main.js`: null mesh is a no-op; otherwise every
material entry is updated by `setOne`. -/
def setMeshColor (mesh : Option MeshRec) (c : Nat) : Option MeshRec :=
  match mesh with
  | none => none
  | some mk =>
    some { mk with material :=
      match mk.material with
      | .single m => .single (setOne c m)
      | .array ms => .array (ms.map (setOne c)) }

/-- Concrete nodes and states used by the witness and counterexample
theorems below. -/
def nodePaintGlass : SceneNode := ⟨0, toL "paint_glass", true⟩

/-- A non-mesh scene node named exactly `body`. -/
def nodeBodyNonMesh : SceneNode := ⟨0, toL "body", false⟩

/-- A mesh whose name matches neither the body patterns nor any exclusion
keyword. -/
def nodeHood : SceneNode := ⟨0, toL "hood", true⟩

/-- A mesh named `rim_fl`. -/
def nodeRimFl : SceneNode := ⟨0, toL "rim_fl", true⟩

/-- A mesh scene node named exactly `body`. -/
def nodeBodyMesh : SceneNode := ⟨0, toL "body", true⟩

/-- The select values right after `initMaterialSelectionMenus` (indices 3, 5,
0) with no lighting mode chosen, an empty log, and doors closed. -/
def initBot : BotState :=
  ⟨toL "black", toL "metallic", toL "clear", toL "none", false, []⟩

/-! ## Membership lemmas for the classifier -/

lemma mem_uniquePush {arr : List SceneNode} {x a : SceneNode} :
    x ∈ uniquePush arr a ↔ x ∈ arr ∨ x = a := by
  unfold uniquePush
  split
  · constructor
    · exact Or.inl
    · rintro (h | rfl)
      · exact h
      · assumption
  · simp

lemma mem_foldl_uniquePush (l : List SceneNode) (init : List SceneNode) (x : SceneNode) :
    x ∈ l.foldl uniquePush init ↔ x ∈ init ∨ x ∈ l := by
  induction l generalizing init with
  | nil => simp
  | cons a t ih =>
    rw [List.foldl_cons, ih, mem_uniquePush]
    simp only [List.mem_cons]
    tauto

lemma getObjectByName_eq_some {g : List SceneNode} {nm : List Char} {m : SceneNode}
    (h : getObjectByName g nm = some m) : m.name = nm ∧ m ∈ g := by
  unfold getObjectByName at h
  have h1 := List.find?_some h
  have h2 := List.mem_of_find?_eq_some h
  exact ⟨by simpa using h1, h2⟩

lemma mem_bodyGroup {g : List SceneNode} {x : SceneNode} (h : x ∈ bodyGroup g) :
    x.name = toL "body" ∨ matchesBodyPattern (lowerL x.name) = true ∨
      hasExclusion (lowerL x.name) = false := by
  have phase : x ∈ bodyPhase12 g →
      x.name = toL "body" ∨ matchesBodyPattern (lowerL x.name) = true := by
    intro hp
    rw [bodyPhase12, mem_foldl_uniquePush] at hp
    rcases hp with h1 | h2
    · left
      unfold bodyStep1 at h1
      rcases hfind : getObjectByName g (toL "body") with _ | m <;> rw [hfind] at h1
      · simp at h1
      · change x ∈ (if m.isMesh = true then uniquePush [] m else []) at h1
        split at h1
        · rcases mem_uniquePush.mp h1 with h3 | rfl
          · simp at h3
          · exact (getObjectByName_eq_some hfind).1
        · simp at h1
    · right
      have := (List.mem_filter.mp h2).2
      simp only [Bool.and_eq_true] at this
      exact this.2
  unfold bodyGroup at h
  split at h
  · rw [mem_foldl_uniquePush] at h
    rcases h with h1 | h2
    · rcases phase h1 with h3 | h3
      · exact Or.inl h3
      · exact Or.inr (Or.inl h3)
    · right; right
      have := (List.mem_filter.mp h2).2
      simp only [Bool.and_eq_true, Bool.not_eq_true'] at this
      exact this.2
  · rcases phase h with h3 | h3
    · exact Or.inl h3
    · exact Or.inr (Or.inl h3)

lemma mem_glassGroup {g : List SceneNode} {x : SceneNode} (h : x ∈ glassGroup g) :
    matchesGlassPattern (lowerL x.name) = true ∨ x.name = toL "glass" := by
  unfold glassGroup at h
  have pat : x ∈ glassPhase g → matchesGlassPattern (lowerL x.name) = true := by
    intro hp
    rw [glassPhase, mem_foldl_uniquePush] at hp
    rcases hp with h1 | h2
    · simp at h1
    · have := (List.mem_filter.mp h2).2
      simp only [Bool.and_eq_true] at this
      exact this.2
  rcases hfind : getObjectByName g (toL "glass") with _ | m <;> rw [hfind] at h
  · exact Or.inl (pat h)
  · change x ∈ (if m.isMesh = true then uniquePush (glassPhase g) m else glassPhase g) at h
    split at h
    · rcases mem_uniquePush.mp h with h1 | rfl
      · exact Or.inl (pat h1)
      · exact Or.inr (getObjectByName_eq_some hfind).1
    · exact Or.inl (pat h)

lemma mem_rimsGroup {g : List SceneNode} {x : SceneNode} (h : x ∈ rimsGroup g) :
    x.isMesh = true ∧ ∃ nm, nm ∈ rimNames ∧ x.name = nm := by
  have aux : ∀ (names : List (List Char)) (acc : List SceneNode),
      x ∈ names.foldl
        (fun acc nm =>
          match getObjectByName g nm with
          | some m => if m.isMesh then uniquePush acc m else acc
          | none => acc)
        acc →
      x ∈ acc ∨ (x.isMesh = true ∧ ∃ nm, nm ∈ names ∧ x.name = nm) := by
    intro names
    induction names with
    | nil => intro acc h; exact Or.inl h
    | cons nm t ih =>
      intro acc h
      rw [List.foldl_cons] at h
      rcases ih _ h with h1 | h2
      · rcases hfind : getObjectByName g nm with _ | m <;> rw [hfind] at h1
        · exact Or.inl h1
        · change x ∈ (if m.isMesh = true then uniquePush acc m else acc) at h1
          split at h1
          · rcases mem_uniquePush.mp h1 with h3 | rfl
            · exact Or.inl h3
            · right
              refine ⟨by assumption, nm, List.mem_cons_self _ _, (getObjectByName_eq_some hfind).1⟩
          · exact Or.inl h1
      · obtain ⟨hm, nm2, hnm2, hname⟩ := h2
        exact Or.inr ⟨hm, nm2, List.mem_cons_of_mem _ hnm2, hname⟩
  rcases aux rimNames [] h with h1 | h2
  · simp at h1
  · exact h2

/-! ## Claims C4, C5, C6 -/

/-- C4, counterexample: the claim "no node appears in more than one of
{body, rims, glass}" is false as stated — a mesh named `paint_glass` is
claimed by the body/paint pattern rule and again by the glass pattern rule,
so it appears in both `body` and `glass`. -/
theorem c4_counterexample :
    nodePaintGlass ∈ (classify [nodePaintGlass]).body ∧
      nodePaintGlass ∈ (classify [nodePaintGlass]).glass := by decide

/-- C4, amended: after classification the rims group is disjoint from both the
body group and the glass group (a node claimed by the rim lookup is never
added to body or glass); body and glass, however, may share a node. -/
theorem c4_rims_disjoint (g : List SceneNode) (x : SceneNode)
    (h : x ∈ (classify g).rims) :
    x ∉ (classify g).body ∧ x ∉ (classify g).glass := by
  obtain ⟨hm, nm, hnm, hname⟩ := mem_rimsGroup h
  have facts : ∀ nm2 ∈ rimNames, ¬(nm2 = toL "body") ∧
      matchesBodyPattern (lowerL nm2) = false ∧ hasExclusion (lowerL nm2) = true ∧
      matchesGlassPattern (lowerL nm2) = false ∧ ¬(nm2 = toL "glass") := by decide
  obtain ⟨f1, f2, f3, f4, f5⟩ := facts nm hnm
  constructor
  · intro hb
    rcases mem_bodyGroup hb with h1 | h2 | h3
    · exact f1 (hname.symm.trans h1)
    · rw [hname, f2] at h2
      simp at h2
    · rw [hname, f3] at h3
      simp at h3
  · intro hg2
    rcases mem_glassGroup hg2 with h1 | h2
    · rw [hname, f4] at h1
      simp at h1
    · exact f5 (hname.symm.trans h2)

/-- C4 witness for the amended theorem: the mesh `rim_fl` lands in the rims
group and in neither the body nor the glass group. -/
theorem c4_witness :
    nodeRimFl ∉ (classify [nodeRimFl]).body ∧ nodeRimFl ∉ (classify [nodeRimFl]).glass :=
  c4_rims_disjoint [nodeRimFl] nodeRimFl (by decide)

/-- C5: when steps 1–2 of the body classification produce zero matches, the
fallback puts exactly the meshes whose lower-cased name contains no exclusion
keyword into the body group; and when steps 1–2 matched something, the body
group is exactly their result (the fallback does not run). -/
theorem c5_fallback_body (g : List SceneNode) :
    (bodyPhase12 g = [] →
      ∀ x : SceneNode, x ∈ (classify g).body ↔
        (x ∈ g ∧ x.isMesh = true ∧ hasExclusion (lowerL x.name) = false))
  ∧ (bodyPhase12 g ≠ [] → (classify g).body = bodyPhase12 g) := by
  constructor
  · intro h0 x
    show x ∈ bodyGroup g ↔ _
    rw [bodyGroup, if_pos h0, h0, mem_foldl_uniquePush]
    simp [fallbackMeshes, List.mem_filter, Bool.and_eq_true, Bool.not_eq_true', and_assoc]
  · intro h0
    show bodyGroup g = _
    rw [bodyGroup, if_neg h0]

/-- C5 witness: a lone mesh named `hood` matches no body rule, so the fallback
fires and places it in the body group. -/
theorem c5_witness : nodeHood ∈ (classify [nodeHood]).body :=
  ((c5_fallback_body [nodeHood]).1 (by decide) nodeHood).mpr (by decide)

/-- C6, counterexample: the claim is false for non-mesh nodes — a scene graph
containing a (non-mesh) node named exactly `body` classifies it into no group,
because both the exact-name rule and the pattern rule require `isMesh`. -/
theorem c6_counterexample : nodeBodyNonMesh ∉ (classify [nodeBodyNonMesh]).body := by decide

/-- C6, amended: every mesh node named exactly `body` ends up in the body
group after classification (via the body/paint pattern rule, which subsumes
the exact-name rule for meshes). -/
theorem c6_mesh_named_body (g : List SceneNode) (x : SceneNode)
    (hg : x ∈ g) (hm : x.isMesh = true) (hn : x.name = toL "body") :
    x ∈ (classify g).body := by
  have hx2 : x ∈ collectMeshesByNamePattern g matchesBodyPattern := by
    rw [collectMeshesByNamePattern, List.mem_filter]
    refine ⟨hg, ?_⟩
    rw [hm, hn]
    decide
  have hph : x ∈ bodyPhase12 g := by
    rw [bodyPhase12, mem_foldl_uniquePush]
    exact Or.inr hx2
  show x ∈ bodyGroup g
  rw [bodyGroup]
  split
  · next h0 =>
      rw [h0] at hph
      simp at hph
  · exact hph

/-- C6 witness for the amended theorem: a mesh named `body` is classified into
the body group. -/
theorem c6_witness : nodeBodyMesh ∈ (classify [nodeBodyMesh]).body :=
  c6_mesh_named_body [nodeBodyMesh] nodeBodyMesh (by decide) (by decide) (by decide)

/-! ## Claims C1, C2, C3, C10 (command routing) -/

/-- C1, counterexample: `"body ambient light"` contains `body` and no `main`
material name, yet routing does not return NotUnderstood — the body branch
falls through and the lighting intent fires, mutating the lighting
selection. -/
theorem c1_counterexample :
    containsSub (toL "body") (lowerL (toL "body ambient light")) = true
  ∧ firstNameIn mainNames (lowerL (toL "body ambient light")) = none
  ∧ (handleCommand (some (toL "body ambient light")) initBot).1 =
      Outcome.setLighting (toL "ambient")
  ∧ ¬((handleCommand (some (toL "body ambient light")) initBot).2.lighting =
      initBot.lighting) := by decide

/-- C1, amended: on a text that contains `body` or `paint` but no `main`
material name, the body intent does not fire; evaluation falls through to the
later intents, and NotUnderstood (with only the help message appended and no
other state change) results exactly when no later intent fires either: the
text does not contain both `open` and `door`, does not contain `glass`
together with a glass material name, and does not contain `light` together
with a lighting preset name (the rim intent scans the same `main` names, so
it can never fire here).  Stated as a biconditional: under the premise, the
three no-later-intent conditions are equivalent to the NotUnderstood
outcome. -/
theorem c1_body_keyword_without_material (raw : List Char) (st : BotState)
    (hkw : (containsSub (toL "body") (lowerL raw) ||
        containsSub (toL "paint") (lowerL raw)) = true)
    (hmain : firstNameIn mainNames (lowerL raw) = none) :
    handleCommand (some raw) st = (Outcome.notUnderstood, addMessage st Msg.help)
  ↔ ((containsSub (toL "open") (lowerL raw) &&
        containsSub (toL "door") (lowerL raw)) = false
    ∧ (if containsSub (toL "glass") (lowerL raw) then
        firstNameIn glassMatNames (lowerL raw) else none) = none
    ∧ (if containsSub (toL "light") (lowerL raw) ||
        containsSub (toL "lighting") (lowerL raw) then
        firstNameIn lightingNames (lowerL raw) else none) = none) := by
  have hbodyif : (if containsSub (toL "body") (lowerL raw) ||
      containsSub (toL "paint") (lowerL raw) then
        firstNameIn mainNames (lowerL raw) else none) = none := by
    rw [hkw]
    simpa using hmain
  have hrimif : (if containsSub (toL "rim") (lowerL raw) ||
      containsSub (toL "details") (lowerL raw) then
        firstNameIn mainNames (lowerL raw) else none) = none := by
    split
    · exact hmain
    · rfl
  constructor
  · intro h
    by_cases hdoor : (containsSub (toL "open") (lowerL raw) &&
        containsSub (toL "door") (lowerL raw)) = true
    · exfalso
      unfold handleCommand at h
      simp only [Option.getD_some] at h
      rw [if_pos hdoor] at h
      have := congrArg Prod.fst h
      simp at this
    · have hdoorf : (containsSub (toL "open") (lowerL raw) &&
          containsSub (toL "door") (lowerL raw)) = false := Bool.eq_false_iff.mpr hdoor
      unfold handleCommand at h
      simp only [Option.getD_some] at h
      rw [hdoorf] at h
      simp only [Bool.false_eq_true, if_false] at h
      rw [hbodyif, hrimif] at h
      rcases hg : (if containsSub (toL "glass") (lowerL raw) then
          firstNameIn glassMatNames (lowerL raw) else none) with _ | n
      · rw [hg] at h
        rcases hl : (if containsSub (toL "light") (lowerL raw) ||
            containsSub (toL "lighting") (lowerL raw) then
            firstNameIn lightingNames (lowerL raw) else none) with _ | n2
        · exact ⟨hdoorf, rfl, rfl⟩
        · exfalso
          rw [hl] at h
          have := congrArg Prod.fst h
          simp at this
      · exfalso
        rw [hg] at h
        have := congrArg Prod.fst h
        simp at this
  · rintro ⟨hdoorf, hg, hl⟩
    unfold handleCommand
    simp only [Option.getD_some]
    rw [hdoorf]
    simp only [Bool.false_eq_true, if_false]
    rw [hbodyif, hrimif, hg, hl]

/-- C1 witness for the amended theorem: `"paint the town"` contains `paint`
but no material, glass, door or lighting trigger, so routing ends in
NotUnderstood with only the help message appended. -/
theorem c1_witness :
    handleCommand (some (toL "paint the town")) initBot =
      (Outcome.notUnderstood, addMessage initBot Msg.help) :=
  (c1_body_keyword_without_material (toL "paint the town") initBot
    (by decide) (by decide)).mpr (by decide)

/-- C2: the command handler performs no readiness check — `ensureCarReady`
exists in the source with exactly the still-loading report, but
`handleCommand` never consults it: in every state, including one where the
car model is absent and the body group empty, `"make body red"` mutates the
body selection and logs a body-set message, never the still-loading one. -/
theorem c2_no_loading_guard (st : BotState) :
    handleCommand (some (toL "make body red")) st =
      (Outcome.setBody (toL "red"),
        addMessage { st with bodyMat := toL "red" } (Msg.bodySet (toL "red")))
  ∧ ensureCarReady false 0 st = (false, addMessage st Msg.stillLoading) :=
  ⟨rfl, rfl⟩

/-- C3: any text containing both `open` and `door` triggers the door-open
action and nothing else, regardless of other keywords, because the door rule
is tested first and returns immediately. -/
theorem c3_door_intent_priority (raw : List Char) (st : BotState)
    (h1 : containsSub (toL "open") (lowerL raw) = true)
    (h2 : containsSub (toL "door") (lowerL raw) = true) :
    handleCommand (some raw) st =
      (Outcome.openedDoors, addMessage (openDoors st) Msg.openingDoors) := by
  unfold handleCommand
  simp only [Option.getD_some, h1, h2, Bool.and_self, if_true]

/-- C3 witness: `"open the doors please"` opens the doors. -/
theorem c3_witness :
    handleCommand (some (toL "open the doors please")) initBot =
      (Outcome.openedDoors, addMessage (openDoors initBot) Msg.openingDoors) :=
  c3_door_intent_priority (toL "open the doors please") initBot (by decide) (by decide)

/-- C10: a null/undefined input is coerced to the empty string, and both it
and the empty string match no intent: the handler returns NotUnderstood and
the state is unchanged except for the appended help message. -/
theorem c10_empty_input (st : BotState) :
    handleCommand none st = (Outcome.notUnderstood, addMessage st Msg.help)
  ∧ handleCommand (some []) st = (Outcome.notUnderstood, addMessage st Msg.help) :=
  ⟨rfl, rfl⟩

/-! ## Claim C7 (lighting presets) -/

lemma mem_allOff {st : LightingState} {p : List Char × List Bool} (h : p ∈ allOff st) :
    p.2.any (fun b => b) = false := by
  unfold allOff at h
  obtain ⟨q, hq, hpq⟩ := List.mem_map.mp h
  subst hpq
  simp [List.any_map]

/-- C7: `setActivePreset` first makes every light of every preset invisible;
a light can be visible afterwards only in the preset named by the mode, the
sentinel `none` leaves zero lights visible, and when the mode is a known
preset other than `none` every light of that preset is visible. -/
theorem c7_lighting_exclusion (mode : List Char) (st : LightingState) :
    (∀ p ∈ setActivePreset mode st, p.2.any (fun b => b) = true → p.1 = mode)
  ∧ (mode = toL "none" → ∀ p ∈ setActivePreset mode st, p.2.any (fun b => b) = false)
  ∧ ((st.find? (fun p => p.1 == mode)).isSome = true → ¬(mode = toL "none") →
      ∀ p ∈ setActivePreset mode st, p.1 = mode → p.2.all (fun b => b) = true) := by
  refine ⟨?_, ?_, ?_⟩
  · intro p hp hany
    unfold setActivePreset at hp
    split at hp
    · obtain ⟨q, hq, hpq⟩ := List.mem_map.mp hp
      subst hpq
      by_cases hqm : (q.1 == mode) = true
      · rw [if_pos hqm]
        exact eq_of_beq hqm
      · rw [if_neg hqm] at hany
        rw [mem_allOff hq] at hany
        exact absurd hany (by simp)
    · rw [mem_allOff hp] at hany
      exact absurd hany (by simp)
  · intro hnone p hp
    have hcond : (!(mode == toL "none") &&
        (st.find? (fun p => p.1 == mode)).isSome) = false := by
      subst hnone
      simp
    unfold setActivePreset at hp
    rw [if_neg (by simp [hcond])] at hp
    exact mem_allOff hp
  · intro hfind hnone p hp hpm
    have hcond : (!(mode == toL "none") &&
        (st.find? (fun p => p.1 == mode)).isSome) = true := by
      simp only [Bool.and_eq_true, Bool.not_eq_true', hfind, and_true]
      exact beq_eq_false_iff_ne.mpr (fun h => hnone h)
    unfold setActivePreset at hp
    rw [if_pos hcond] at hp
    obtain ⟨q, hq, hpq⟩ := List.mem_map.mp hp
    subst hpq
    by_cases hqm : (q.1 == mode) = true
    · rw [if_pos hqm]
      simp [List.all_map]
    · rw [if_neg hqm] at hpm
      exact absurd (by simp [hpm] : (q.1 == mode) = true) hqm

/-- C7 witness: activating the `ambient` preset on the initial lighting state
makes all of that preset's lights visible. -/
theorem c7_witness :
    ((toL "ambient", [true]) : List Char × List Bool).2.all (fun b => b) = true :=
  (c7_lighting_exclusion (toL "ambient") initLightsState).2.2 (by decide) (by decide)
    (toL "ambient", [true]) (by decide) (by decide)

/-! ## Claim C8 (material application is idempotent) -/

lemma applyWrites_not_written (ws : List (Nat × Nat)) (k : Nat)
    (h : k ∉ ws.map Prod.fst) : ∀ s : MatStore, applyWrites ws s k = s k := by
  induction ws with
  | nil => intro s; rfl
  | cons w t ih =>
    intro s
    simp only [List.map_cons, List.mem_cons] at h
    push_neg at h
    have step : applyWrites (w :: t) s = applyWrites t (setMat s w.1 w.2) := rfl
    rw [step, ih (by exact h.2) _]
    simp [setMat, h.1]

lemma applyWrites_written (ws : List (Nat × Nat)) (k : Nat)
    (h : k ∈ ws.map Prod.fst) :
    ∀ s1 s2 : MatStore, applyWrites ws s1 k = applyWrites ws s2 k := by
  induction ws with
  | nil => simp at h
  | cons w t ih =>
    intro s1 s2
    have step1 : applyWrites (w :: t) s1 = applyWrites t (setMat s1 w.1 w.2) := rfl
    have step2 : applyWrites (w :: t) s2 = applyWrites t (setMat s2 w.1 w.2) := rfl
    by_cases hk : k ∈ t.map Prod.fst
    · rw [step1, step2, ih hk _ _]
    · have hkw : k = w.1 := by
        simp only [List.map_cons, List.mem_cons] at h
        tauto
      rw [step1, step2, applyWrites_not_written t k hk _, applyWrites_not_written t k hk _]
      simp [setMat, hkw]

/-- C8: applying the same material selection twice in a row is the same as
applying it once — the second run rewrites every part's material reference
with the value it already holds, so nothing visible changes. -/
theorem c8_updateMaterials_idempotent (sel : Selection) (g : GroupIds) (s : MatStore) :
    updateMaterials sel g (updateMaterials sel g s) = updateMaterials sel g s := by
  funext k
  unfold updateMaterials
  by_cases h : k ∈ (g.body.map (fun i => (i, sel.body)) ++ g.rims.map (fun i => (i, sel.rims)) ++
      g.glass.map (fun i => (i, sel.glass))).map Prod.fst
  · exact applyWrites_written _ k h _ _
  · rw [applyWrites_not_written _ k h _]

/-! ## Claim C9 (`setMeshColor` is total and skips colorless entries) -/

/-- C9: `setMeshColor` on a null mesh returns with no effect; on a mesh it
treats a single material as a one-element sequence and maps `setOne` over the
entries, where `setOne` sets the colour and marks dirty exactly on entries
exposing a settable colour, leaving null and colourless entries untouched. -/
theorem c9_setMeshColor_total (c : Nat) (mk : MeshRec) :
    setMeshColor none c = none
  ∧ (∃ mk2, setMeshColor (some mk) c = some mk2 ∧ matsOf mk2 = (matsOf mk).map (setOne c))
  ∧ (∀ m : Mat, m.hasSettableColor = true →
      setOne c (some m) = some { m with color := c, needsUpdate := true })
  ∧ (∀ m : Mat, m.hasSettableColor = false → setOne c (some m) = some m)
  ∧ setOne c none = none := by
  refine ⟨rfl, ?_, ?_, ?_, rfl⟩
  · rcases hmat : mk.material with m | ms
    · exact ⟨⟨.single (setOne c m)⟩, by rw [setMeshColor, hmat], by simp [matsOf, hmat]⟩
    · exact ⟨⟨.array (ms.map (setOne c))⟩, by rw [setMeshColor, hmat], by simp [matsOf, hmat]⟩
  · intro m h
    simp [setOne, h]
  · intro m h
    simp [setOne, h]

/-- C9 witness: a material with a settable colour gets the colour and the
dirty mark. -/
theorem c9_witness :
    setOne 5 (some ⟨true, 0, false⟩) = some ⟨true, 5, true⟩ :=
  (c9_setMeshColor_total 5 ⟨.single none⟩).2.2.1 ⟨true, 0, false⟩ rfl
